import Mathlib

/-!
Verification of the PodcastGenerator selection and full-text pipeline.

The definitions below are a shallow embedding of the Python sources:

  * `pipelines/step1/src/step1/model.py`, `filters.py`, `scoring.py`,
    `select.py` (candidate model, deduplication, scoring, selection);
  * `pipelines/step2/src/step2/analyze.py` (structured red flags);
  * `pipelines/step2/src/step2/text_clean.py` (sectioning, excerpting,
    content red flags);
  * `pipelines/step2/src/step2/fetch_fulltext.py` (full-text resolution).

Modelling conventions: Python floats appearing in scores, budgets and
effect estimates are represented by exact rationals (every literal the code
adds is a dyadic rational, and the integer-valued products taken at the
concrete inputs below are exact in binary floating point as well); byte
payloads are carried as strings; the network and the JSON payloads it
returns are an explicit oracle argument; `None`-or-string values are
`Option String` with Python truthiness made explicit.  Effectful failure
(`try/except` swallowing) becomes `Option`.
-/

/-! ## Generic string helpers (Python semantics) -/

/-- Lower-case a string character by character (Python `str.lower` on the
ASCII inputs used throughout the sources). -/
def str_lower (s : String) : String := ⟨s.data.map Char.toLower⟩

/-- Drop whitespace from both ends of a character list. -/
def trim_cl (cs : List Char) : List Char :=
  ((cs.dropWhile Char.isWhitespace).reverse.dropWhile Char.isWhitespace).reverse

/-- Python `s.strip()`. -/
def py_strip (s : String) : String := ⟨trim_cl s.data⟩

/-- Join character lists with a separator (Python `sep.join`). -/
def intercalate_cl (sep : List Char) : List (List Char) → List Char
  | [] => []
  | [x] => x
  | x :: y :: rest => x ++ sep ++ intercalate_cl sep (y :: rest)

/-- Python `sep.join(xs)` on strings. -/
def str_intercalate (sep : String) (xs : List String) : String :=
  ⟨intercalate_cl sep.data (xs.map String.data)⟩

/-- Python `s.split(sep)` for a non-empty separator, scanning left to right
and resuming after each match; `acc` holds the reversed current piece.  The
fuel argument (chosen as the text's length, enough for the whole scan) only
makes the recursion structural. -/
def split_on_fuel (sep : List Char) : Nat → List Char → List Char → List (List Char)
  | _, [], acc => [acc.reverse]
  | 0, cs, acc => [acc.reverse ++ cs]
  | Nat.succ fuel, c :: rest, acc =>
    if sep.isPrefixOf (c :: rest) then
      acc.reverse :: split_on_fuel sep fuel (rest.drop (sep.length - 1)) []
    else
      split_on_fuel sep fuel rest (c :: acc)

/-- Python `s.split(sep)` on strings. -/
def str_split_on (s sep : String) : List String :=
  (split_on_fuel sep.data s.data.length s.data []).map fun l => ⟨l⟩

/-- Membership of `p` as a contiguous sublist of character lists (Python
substring containment `p in s`). -/
def infix_cl (p : List Char) : List Char → Bool
  | [] => p.isEmpty
  | c :: rest => p.isPrefixOf (c :: rest) || infix_cl p rest

/-- Python `pat in s` on strings. -/
def contains_sub (pat s : String) : Bool := infix_cl pat.data s.data

/-- Python `any(term in s for term in terms)`. -/
def any_term_in (terms : List String) (s : String) : Bool :=
  terms.any fun t => contains_sub t s

/-- Python truthiness of an optional string (`None` and `""` are falsy). -/
def opt_truthy : Option String → Bool
  | some s => s != ""
  | none => false

/-- Python `doi if doi else pmid` / `doi or pmid` over an optional DOI and a
plain PMID string. -/
def py_identifier (doi : Option String) (pmid : String) : String :=
  match doi with
  | some d => if d != "" then d else pmid
  | none => pmid

/-- Python string slicing `s[:n]` (first `n` characters). -/
def str_take (s : String) (n : Nat) : String := ⟨s.data.take n⟩

/-! ## step1/model.py -/

/-- Unified article model for RCT metadata (`step1/model.py`, class
`Article`).  Scores are rationals standing for the Python floats. -/
structure Article where
  title : String
  abstract : String
  authors : List String
  journal : String
  year : Int
  pub_date : String
  pmid : String
  doi : Option String
  url : String
  language : String
  mesh_terms : List String
  trial_design : String
  sample_size : Option Int
  multicenter : Option Bool
  intervention : String
  comparator : String
  primary_outcome : String
  effect_summary : Option String
  score : Option ℚ
  rationale : Option String
deriving DecidableEq

/-- A selection-history entry as `record_selected_article` writes it and
`is_article_previously_selected` reads it (a JSON object; absent keys read
back as `None`, hence the `Option` fields). -/
structure HistoryEntry where
  title : String
  doi : Option String
  pmid : Option String
  journal : String
  date_selected : String
  score : Option ℚ
  rationale : String
deriving DecidableEq

/-! ## step1/filters.py: deduplicate_articles -/

/-- The DOI string `deduplicate_articles` adds to `seen_dois` for a kept
article (`if article.doi: seen_dois.add(article.doi)`). -/
def article_doi_strings (a : Article) : List String :=
  match a.doi with
  | some d => if d != "" then [d] else []
  | none => []

/-- The PMID string `deduplicate_articles` adds to `seen_pmids` for a kept
article (`if article.pmid: seen_pmids.add(article.pmid)`). -/
def article_pmid_strings (a : Article) : List String :=
  if a.pmid != "" then [a.pmid] else []

/-- Both identifier strings a kept article contributes to the seen sets. -/
def ident_strings (a : Article) : List String :=
  article_doi_strings a ++ article_pmid_strings a

/-- `identifier = article.doi if article.doi else article.pmid` in
`deduplicate_articles`. -/
def dedup_identifier (a : Article) : String := py_identifier a.doi a.pmid

/-- The loop of `deduplicate_articles` (`step1/filters.py` lines 165-180),
with the seen sets carried as lists used only through membership. -/
def dedup_go (seen_dois seen_pmids : List String) : List Article → List Article
  | [] => []
  | article :: rest =>
    if dedup_identifier article ≠ "" ∧ dedup_identifier article ∉ seen_dois ∧
        dedup_identifier article ∉ seen_pmids then
      article :: dedup_go (seen_dois ++ article_doi_strings article)
        (seen_pmids ++ article_pmid_strings article) rest
    else
      dedup_go seen_dois seen_pmids rest

/-- `deduplicate_articles` (`step1/filters.py`). -/
def deduplicate_articles (articles : List Article) : List Article :=
  dedup_go [] [] articles

/-! ## step1/scoring.py -/

/-- `HIGH_QUALITY_JOURNALS` from `step1/scoring.py`. -/
def HIGH_QUALITY_JOURNALS : List String :=
  ["Anesthesiology",
   "British Journal of Anaesthesia",
   "Anesthesia and Analgesia",
   "Anaesthesiology",
   "European Journal of Anaesthesiology",
   "Journal of Clinical Anesthesia",
   "Anesthesia & Analgesia",
   "Anaesthesia",
   "Acta Anaesthesiologica Scandinavica",
   "Canadian Journal of Anesthesia",
   "Regional Anesthesia and Pain Medicine",
   "Pain Medicine",
   "Journal of Anesthesia",
   "Anaesthesia, Pain & Intensive Care",
   "Middle East Journal of Anesthesiology",
   "Korean Journal of Anesthesiology",
   "Saudi Journal of Anaesthesia",
   "Indian Journal of Anaesthesia",
   "Journal of Anaesthesiology Clinical Pharmacology",
   "A & A Case Reports"]

/-- `PATIENT_CENTERED_OUTCOMES` from `step1/scoring.py`. -/
def PATIENT_CENTERED_OUTCOMES : List String :=
  ["pain", "mortality", "morbidity", "complications", "recovery",
   "discharge", "quality of life", "functional outcome", "patient satisfaction",
   "length of stay", "readmission", "adverse events", "safety"]

/-- `CLINICALLY_ACTIONABLE_INTERVENTIONS` from `step1/scoring.py`. -/
def CLINICALLY_ACTIONABLE_INTERVENTIONS : List String :=
  ["airway", "intubation", "ventilation", "regional", "block",
   "analgesia", "anesthetic", "sedation", "hemodynamic", "fluid",
   "blood pressure", "hypotension", "hypertension", "cardiac output"]

/-- Matcher for the tail `\d*%` of the percentage regex: some further digits
followed by a percent sign (success iff SOME amount of backtracking
succeeds, which is the success condition of `re.search`). -/
def dstar_percent : List Char → Bool
  | [] => false
  | c :: rest => c == '%' || (c.isDigit && dstar_percent rest)

/-- Matcher for `\.?\d*%` at the current position. -/
def tail_opt_percent (cs : List Char) : Bool :=
  (match cs with
   | '.' :: rest => dstar_percent rest
   | _ => false) || dstar_percent cs

/-- Matcher for the continuation of `\d+\.?\d*%` after its first digit. -/
def after_digits_percent : List Char → Bool
  | [] => tail_opt_percent []
  | c :: rest => tail_opt_percent (c :: rest) || (c.isDigit && after_digits_percent rest)

/-- Python `re.search(r"\d+\.?\d*%", s)` as a Boolean. -/
def search_percent : List Char → Bool
  | [] => false
  | c :: rest => (c.isDigit && after_digits_percent rest) || search_percent rest

/-- The direction words of the second effect-summary regex. -/
def direction_words : List String :=
  ["increase", "decrease", "higher", "lower", "better", "worse"]

/-- One of the direction words starts at the current position. -/
def words_at (cs : List Char) : Bool :=
  direction_words.any fun w => w.data.isPrefixOf cs

/-- Matcher for `\s*(increase|decrease|higher|lower|better|worse)`. -/
def sstar_words : List Char → Bool
  | [] => words_at []
  | c :: rest => words_at (c :: rest) || (c.isWhitespace && sstar_words rest)

/-- Matcher for `\d*\s*(words)`. -/
def dstar_words : List Char → Bool
  | [] => sstar_words []
  | c :: rest => sstar_words (c :: rest) || (c.isDigit && dstar_words rest)

/-- Matcher for `\.?\d*\s*(words)` at the current position. -/
def tail_opt_words (cs : List Char) : Bool :=
  (match cs with
   | '.' :: rest => dstar_words rest
   | _ => false) || dstar_words cs

/-- Matcher for the continuation of the direction regex after its first
digit. -/
def after_digits_words : List Char → Bool
  | [] => tail_opt_words []
  | c :: rest => tail_opt_words (c :: rest) || (c.isDigit && after_digits_words rest)

/-- Python `re.search(r"\d+\.?\d*\s*(increase|decrease|higher|lower|better|worse)", s, re.IGNORECASE)`
on an already lower-cased string. -/
def search_num_direction : List Char → Bool
  | [] => false
  | c :: rest => (c.isDigit && after_digits_words rest) || search_num_direction rest

/-- The whole effect-summary condition of `score_article` (either regex
matches; IGNORECASE is modelled by lower-casing the input of the second,
whose pattern letters are all lower case). -/
def effect_regex (s : String) : Bool :=
  search_percent s.data || search_num_direction (str_lower s).data

/-- `score_article` (`step1/scoring.py` lines 48-103): additive score plus
the ordered rationale parts. -/
def score_article (a : Article) : ℚ × String :=
  let score : ℚ := 0
  let parts : List String := []
  let (score, parts) :=
    match a.sample_size with
    | some n =>
      if n ≠ 0 then
        if n ≥ 500 then (score + 3, parts ++ ["large sample size (>500)"])
        else if n ≥ 100 then (score + 3/2, parts ++ ["moderate sample size (>100)"])
        else (score, parts)
      else (score, parts)
    | none => (score, parts)
  let (score, parts) :=
    if a.multicenter = some true then (score + 1, parts ++ ["multicenter study"])
    else (score, parts)
  let (score, parts) :=
    if any_term_in PATIENT_CENTERED_OUTCOMES (str_lower a.primary_outcome) then
      (score + 3/2, parts ++ ["patient-centered outcome"])
    else (score, parts)
  let (score, parts) :=
    if any_term_in CLINICALLY_ACTIONABLE_INTERVENTIONS (str_lower a.intervention) then
      (score + 3/2, parts ++ ["clinically actionable intervention"])
    else (score, parts)
  let (score, parts) :=
    if HIGH_QUALITY_JOURNALS.contains a.journal then
      (score + 2, parts ++ ["high-quality journal"])
    else (score, parts)
  let (score, parts) :=
    match a.effect_summary with
    | some s =>
      if s ≠ "" ∧ (py_strip s).length > 0 then
        if effect_regex s then (score + 1, parts ++ ["quantified effect"])
        else (score, parts)
      else (score, parts)
    | none => (score, parts)
  (score, if parts.isEmpty then "no standout features" else str_intercalate "; " parts)

/-! ## step1/select.py -/

/-- `is_article_previously_selected` (`step1/select.py` lines 45-67). -/
def is_article_previously_selected (article : Article) (history : List HistoryEntry) : Bool :=
  let article_identifier := py_identifier article.doi article.pmid
  if article_identifier == "" then false
  else
    history.any fun entry =>
      (opt_truthy article.doi && entry.doi == article.doi) ||
      (article.pmid != "" && entry.pmid == some article.pmid)

/-- Insert into a list sorted descending by `key`, before the first element
whose key is not larger (the unique stable position). -/
def insert_desc {α : Type} (key : α → ℚ) (p : α) : List α → List α
  | [] => [p]
  | q :: qs => if key q ≤ key p then p :: q :: qs else q :: insert_desc key p qs

/-- Stable descending sort by `key`: the unique output of Python
`sorted(xs, key=key, reverse=True)` (descending, equal keys in input
order). -/
def sort_desc {α : Type} (key : α → ℚ) : List α → List α
  | [] => []
  | x :: xs => insert_desc key x (sort_desc key xs)

/-- The sort key `lambda x: x.score or 0.0` of `select_top_article` (a
`None` score sorts as `0.0`; a `0.0` score is replaced by the same value). -/
def key_score (a : Article) : ℚ := a.score.getD 0

/-- Render an optional score into the rationale f-string (numeric formatting
of the Python float is abstracted by the rational's `toString`; no claim
depends on the digits). -/
def py_show_score : Option ℚ → String
  | none => "None"
  | some q => toString q

/-- Render an optional rationale into the f-string (`None` prints as
`"None"`). -/
def py_show_opt : Option String → String
  | none => "None"
  | some s => s

/-- The rationale f-string of `select_top_article`. -/
def base_rationale (a : Article) : String :=
  "Selected article with highest score (" ++ py_show_score a.score ++
    ") based on: " ++ py_show_opt a.rationale

/-- The annotation appended when every candidate was previously selected. -/
def previously_selected_note : String :=
  " (Note: This article has been previously selected)"

/-- `select_top_article` (`step1/select.py` lines 70-109).  The history file
contents are passed explicitly (the source loads them when
`avoid_history` and uses `[]` otherwise, so the parameter is only read in
the `avoid_history` branch). -/
def select_top_article (articles : List Article) (avoid_history : Bool)
    (history : List HistoryEntry) : Option (Article × String) :=
  if articles.isEmpty then none
  else
    let sorted_articles := sort_desc key_score articles
    match sorted_articles with
    | [] => none
    | top :: _ =>
      if !avoid_history then some (top, base_rationale top)
      else
        match sorted_articles.find? (fun a => !is_article_previously_selected a history) with
        | some a => some (a, base_rationale a)
        | none => some (top, base_rationale top ++ previously_selected_note)

/-! ## Spec-side definitions (refinement comparisons)

These two follow the words of the specification and of the claims, not the
code: the spec's identity key is "DOI if present, else PMID", and a key
"matches a history entry" when it equals one of the entry's identifiers. -/

/-- Identity key as the spec words it: the persistent identifier (DOI) if
present, else the source identifier (PMID). -/
def spec_identity_key (a : Article) : String :=
  match a.doi with
  | some d => d
  | none => a.pmid

/-- Whether the spec's identity key of `a` matches some history entry. -/
def spec_key_in_history (a : Article) (history : List HistoryEntry) : Bool :=
  history.any fun entry =>
    entry.doi == some (spec_identity_key a) || entry.pmid == some (spec_identity_key a)

/-! ## step2/analyze.py: the structured red-flag detector -/

/-- The `effect_estimate` dictionary of an `ArticleCard`
(`{"measure", "value", "ci", "p"}`).  `Option` on `value`/`ci` models key
presence (the code tests `'value' in effect_estimate`); `p` distinguishes an
absent key (outer `none`) from a present `None` (inner `none`), because the
code tests both. -/
structure EffectEstimate where
  measure : Option String
  value : Option ℚ
  ci : Option (List ℚ)
  p : Option (Option ℚ)
deriving DecidableEq

/-- `ArticleCard` (`step2/analyze.py`): a `TypedDict` with `total=False`, so
every field is optional; `article.get(k)` reads `none` for an absent key. -/
structure ArticleCard where
  title : Option String
  journal : Option String
  date : Option String
  doi : Option String
  pmid : Option String
  score : Option ℚ
  rationale : Option String
  design : Option String
  population : Option String
  sample_size : Option Int
  intervention : Option String
  comparator : Option String
  primary_outcome : Option String
  key_result_text : Option String
  effect_estimate : Option EffectEstimate
  centers : Option String
  blinding : Option String
  allocation : Option String
  funding : Option String
  conflicts : Option String
  language : Option String
deriving DecidableEq

/-- Python `not article.get(k)` for an optional string field. -/
def opt_falsy (o : Option String) : Bool := !opt_truthy o

/-- `article.get(k, '').lower()` for an optional string field. -/
def get_lower_default (o : Option String) : String := str_lower (o.getD "")

/-- `article.get(k, '').lower() if article.get(k) else ''` (the guarded form
used for `centers` and `funding`). -/
def get_lower_guarded (o : Option String) : String :=
  match o with
  | some s => if s != "" then str_lower s else ""
  | none => ""

/-- `_detect_red_flags` (`step2/analyze.py` lines 124-186), as the ordered
concatenation of its conditional appends. -/
def detect_red_flags (article : ArticleCard) : List String :=
  (match article.sample_size with
   | some n => if n < 100 then ["Underpowered signal: sample size < 100 for superiority trial"] else []
   | none => []) ++
  (match article.effect_estimate with
   | some ee =>
     match ee.value, ee.ci with
     | some point_estimate, some ci =>
       match ci with
       | [c0, c1] =>
         let ci_width := |c1 - c0|
         if point_estimate ≠ 0 ∧ |ci_width / point_estimate| > 1 then
           ["Imprecise effect: wide confidence interval"]
         else []
       | _ => []
     | _, _ => []
   | none => []) ++
  (match article.effect_estimate with
   | some ee =>
     match ee.p with
     | some (some p) => if 9/200 ≤ p ∧ p ≤ 3/50 then ["Borderline p-value: fragile significance"] else []
     | _ => []
   | none => []) ++
  (match article.primary_outcome with
   | some s => if s = "" ∨ py_strip s = "" then ["Multiplicity/selective reporting risk: primary outcome unclear"] else []
   | none => ["Multiplicity/selective reporting risk: primary outcome unclear"]) ++
  (if opt_falsy article.allocation || opt_falsy article.blinding then
     let issues := (if opt_falsy article.allocation then ["allocation concealment"] else []) ++
       (if opt_falsy article.blinding then ["blinding"] else [])
     if issues.isEmpty then [] else ["Design opacity: missing " ++ str_intercalate ", " issues]
   else []) ++
  (let population := get_lower_default article.population
   let centers := get_lower_guarded article.centers
   if (contains_sub "single" centers || contains_sub "single" population) &&
       contains_sub "specific" population then
     ["External validity concern: narrow population"]
   else []) ++
  (let funding := get_lower_guarded article.funding
   if contains_sub "industry" funding || contains_sub "commercial" funding then
     ["Potential bias: industry funding declared"]
   else [])

/-- The imprecise-effect condition as the spec words it: the CI half-width
(half the absolute difference of the bounds) exceeds the absolute value of
the point estimate.  This follows the spec sentence, not the code, for the
refinement comparison of C6. -/
def spec_imprecise_cond (v c0 c1 : ℚ) : Bool := |c1 - c0| / 2 > |v|

/-! ## step2/text_clean.py: sectioning -/

/-- `SectionedText` (`step2/text_clean.py`): the six canonical sections. -/
structure SectionedText where
  abstract : String
  introduction : String
  methods : String
  results : String
  discussion : String
  conclusion : String
deriving DecidableEq

/-- The all-empty `SectionedText` both sectioners start from. -/
def empty_sections : SectionedText :=
  { abstract := "", introduction := "", methods := "", results := "",
    discussion := "", conclusion := "" }

/-- `SECTION_SYNONYMS` from `step2/text_clean.py`, in insertion order. -/
def SECTION_SYNONYMS : List (String × List String) :=
  [("abstract", ["abstract", "summary"]),
   ("introduction", ["introduction", "background", "rationale", "purpose"]),
   ("methods", ["methods", "materials and methods", "patients and methods",
                "experimental procedures", "study design"]),
   ("results", ["results", "findings", "outcome", "outcomes"]),
   ("discussion", ["discussion", "interpretation", "clinical implications", "limitations"]),
   ("conclusion", ["conclusion", "conclusions", "summary"])]

/-- Drop a trailing run of whitespace characters. -/
def rstrip_ws (cs : List Char) : List Char :=
  (cs.reverse.dropWhile Char.isWhitespace).reverse

/-- `re.sub(r"^\d+\s*", "", cs)`: when the text starts with a digit, drop
the leading digit run and the whitespace after it. -/
def strip_leading_number (cs : List Char) : List Char :=
  match cs with
  | c :: _ => if c.isDigit then (cs.dropWhile Char.isDigit).dropWhile Char.isWhitespace else cs
  | [] => []

/-- The prefix before the first `:` or `-`, or `none` when there is
neither. -/
def cut_tail_aux : List Char → Option (List Char)
  | [] => none
  | c :: rest =>
    if c == ':' || c == '-' then some []
    else
      match cut_tail_aux rest with
      | some kept => some (c :: kept)
      | none => none

/-- `re.sub(r"\s*[:\-].*$", "", cs)`: cut from the leftmost colon or hyphen
(and the whitespace run just before it) to the end; no colon or hyphen
leaves the text unchanged. -/
def cut_tail (cs : List Char) : List Char :=
  match cut_tail_aux cs with
  | some kept => rstrip_ws kept
  | none => cs

/-- The synonym scan of `_map_section_headers`: `synonym in header_lower or
header_lower in synonym`. -/
def synonym_scan (hl sec : String) : List String → Option String
  | [] => none
  | syn :: rest =>
    if contains_sub syn hl || contains_sub hl syn then some sec
    else synonym_scan hl sec rest

/-- The section loop of `_map_section_headers` over `SECTION_SYNONYMS`. -/
def section_scan (hl : String) : List (String × List String) → Option String
  | [] => none
  | (sec, synonyms) :: rest =>
    if hl = sec then some sec
    else
      match synonym_scan hl sec synonyms with
      | some s => some s
      | none => section_scan hl rest

/-- `_map_section_headers` (`step2/text_clean.py` lines 378-404). -/
def map_section_headers (header : String) : Option String :=
  let header_lower := py_strip (str_lower header)
  let header_lower : String := ⟨strip_leading_number header_lower.data⟩
  let header_lower : String := ⟨cut_tail header_lower.data⟩
  section_scan header_lower SECTION_SYNONYMS

/-- Write a section's text by name (`sections[current_section] = ...`; the
loop only ever holds one of the six names). -/
def set_section (s : SectionedText) (name text : String) : SectionedText :=
  if name = "abstract" then { s with abstract := text }
  else if name = "introduction" then { s with introduction := text }
  else if name = "methods" then { s with methods := text }
  else if name = "results" then { s with results := text }
  else if name = "discussion" then { s with discussion := text }
  else if name = "conclusion" then { s with conclusion := text }
  else s

/-- The loop state of `_section_html_content`: current section name, the
accumulating `current_content`, and the sections written so far. -/
def section_state : Type := String × List String × SectionedText

/-- One iteration of the line loop of `_section_html_content`
(`step2/text_clean.py` lines 259-272): a recognized header (checked on the
stripped line) saves the accumulated content and switches section; any
other line accumulates into the current section. -/
def section_step (st : String × List String × SectionedText) (line : String) :
    String × List String × SectionedText :=
  match map_section_headers (py_strip line) with
  | some sec =>
    if st.2.1.isEmpty then (sec, st.2.1, st.2.2)
    else (sec, [], set_section st.2.2 st.1 (py_strip (str_intercalate "\n" st.2.1)))
  | none => (st.1, st.2.1 ++ [line], st.2.2)

/-- The initial loop state: the current section starts as `"abstract"`. -/
def initial_section_state : String × List String × SectionedText :=
  ("abstract", [], empty_sections)

/-- The save of the final section after the loop. -/
def section_finalize (st : String × List String × SectionedText) : SectionedText :=
  if st.2.1.isEmpty then st.2.2
  else set_section st.2.2 st.1 (py_strip (str_intercalate "\n" st.2.1))

/-- The whole sectioning loop of `_section_html_content` on the extracted
text's lines (the HTML extraction itself is an external collaborator). -/
def section_text_lines (lines : List String) : SectionedText :=
  section_finalize (lines.foldl section_step initial_section_state)

/-! ## step2/text_clean.py: content red flags -/

/-- Python `s.count(p)` on character lists: non-overlapping occurrences
counted left to right, the scan resuming after each match.  The fuel
argument (chosen as the text's length, enough for the whole scan) only
makes the recursion structural. -/
def count_sub_fuel (p : List Char) : Nat → List Char → Nat
  | _, [] => 0
  | 0, _ => 0
  | Nat.succ fuel, c :: rest =>
    if p.isPrefixOf (c :: rest) then 1 + count_sub_fuel p fuel (rest.drop (p.length - 1))
    else count_sub_fuel p fuel rest

/-- Python `s.count(pat)` on strings. -/
def str_count_sub (s pat : String) : Nat := count_sub_fuel pat.data s.data.length s.data

/-- `detect_content_red_flags` (`step2/text_clean.py` lines 124-161). -/
def detect_content_red_flags (sectioned_text : SectionedText) : List String :=
  let methods_text := str_lower sectioned_text.methods
  let results_text := str_lower sectioned_text.results
  (if !contains_sub "allocation" methods_text && contains_sub "random" methods_text then
     ["Missing CONSORT element: allocation concealment not mentioned"]
   else []) ++
  (if !contains_sub "blinding" methods_text && !contains_sub "masking" methods_text then
     ["Missing CONSORT element: blinding procedures not described"]
   else []) ++
  (if contains_sub "small sample" methods_text &&
      contains_sub "precise estimate" (str_lower sectioned_text.results) then
     ["Potential inconsistency: small sample size with precise estimates claimed"]
   else []) ++
  (if (str_count_sub results_text "outcome" > 3) && !contains_sub "primary outcome" results_text then
     ["Multiple outcomes reported without clear primary outcome designation"]
   else []) ++
  (if contains_sub "subgroup" results_text && !contains_sub "predefined" results_text &&
      !contains_sub "a priori" results_text then
     ["Subgroup analyses presented without stated a priori plan"]
   else [])

/-! ## step2/text_clean.py: token-budgeted excerpting -/

/-- `KEY_TERMS` from `step2/text_clean.py`. -/
def KEY_TERMS : List String :=
  ["effect size", "confidence interval", "p-value", "subgroup",
   "blinding", "allocation", "sample size", "attrition",
   "primary outcome", "secondary outcome", "hypothesis"]

/-- `_estimate_tokens`: character count divided by four, floored. -/
def estimate_tokens (text : String) : Nat := text.data.length / 4

/-- The allocation `_allocate_token_budget` returns.  `int(max_tokens * f)`
is modelled as the exact truncated product (the float multiplications are
exact at the concrete budgets evaluated below). -/
structure TokenBudget where
  abstract : Nat
  introduction : Nat
  methods : Nat
  results : Nat
  discussion : Nat
  conclusion : Nat
deriving DecidableEq

/-- `_allocate_token_budget` (`step2/text_clean.py` lines 451-470). -/
def allocate_token_budget (max_tokens : Nat) : TokenBudget :=
  { abstract := max_tokens * 10 / 100,
    introduction := max_tokens * 10 / 100,
    methods := max_tokens * 25 / 100,
    results := max_tokens * 35 / 100,
    discussion := max_tokens * 15 / 100,
    conclusion := max_tokens * 5 / 100 }

/-- Python `re.search(r"\d+\.\d+", s)`: a digit run, a dot, a digit. -/
def after_digits_decimal : List Char → Bool
  | [] => false
  | c :: rest =>
    (c == '.' && (match rest with
                  | d :: _ => d.isDigit
                  | [] => false)) ||
    (c.isDigit && after_digits_decimal rest)

/-- Search for a decimal number anywhere in the text. -/
def search_decimal : List Char → Bool
  | [] => false
  | c :: rest => (c.isDigit && after_digits_decimal rest) || search_decimal rest

/-- The paragraph score of `_select_excerpts_from_section`: one point per
key term present in the lower-cased paragraph, plus half a point when the
paragraph holds a decimal number (additions happen only on a hit, as the
`+=` statements of the source do). -/
def paragraph_score (paragraph : String) (key_terms : List String) : ℚ :=
  let score : ℚ := 0
  let score := key_terms.foldl (fun s term =>
    if contains_sub term (str_lower paragraph) then s + 1 else s) score
  if search_decimal paragraph.data then score + 1/2 else score

/-- The selection loop of `_select_excerpts_from_section` (lines 519-536):
accept a paragraph while it fits the budget; on the first paragraph that
does not fit, append a truncated prefix when more than 10 tokens remain,
and stop either way. -/
def select_pieces_go (allocated_tokens : Nat) : List (String × ℚ) → Nat → List String
  | [], _ => []
  | (paragraph, _) :: rest, current_tokens =>
    let paragraph_tokens := estimate_tokens paragraph
    if current_tokens + paragraph_tokens ≤ allocated_tokens then
      paragraph :: select_pieces_go allocated_tokens rest (current_tokens + paragraph_tokens)
    else
      let remaining_tokens := allocated_tokens - current_tokens
      if remaining_tokens > 10 then
        [str_take paragraph (remaining_tokens * 4) ++ "..."]
      else []

/-- The list of pieces `_select_excerpts_from_section` joins for a
non-empty section: paragraphs split on blank lines, scored, stably sorted
by descending score, then run through the selection loop. -/
def section_pieces (section_text : String) (allocated_tokens : Nat)
    (key_terms : List String) : List String :=
  let paragraphs := str_split_on section_text "\n\n"
  let scored_paragraphs := paragraphs.map fun p => (p, paragraph_score p key_terms)
  select_pieces_go allocated_tokens (sort_desc Prod.snd scored_paragraphs) 0

/-- `_select_excerpts_from_section` (`step2/text_clean.py` lines 473-538). -/
def select_excerpts_from_section (section_text : String) (allocated_tokens : Nat)
    (key_terms : List String) : String :=
  if section_text = "" then ""
  else String.intercalate "\n\n" (section_pieces section_text allocated_tokens key_terms)

/-- `select_excerpts_for_prompt` (`step2/text_clean.py` lines 87-121). -/
def select_excerpts_for_prompt (sectioned_text : SectionedText) (max_tokens : Nat) :
    SectionedText :=
  let budget := allocate_token_budget max_tokens
  { abstract := select_excerpts_from_section sectioned_text.abstract budget.abstract KEY_TERMS,
    introduction := select_excerpts_from_section sectioned_text.introduction budget.introduction KEY_TERMS,
    methods := select_excerpts_from_section sectioned_text.methods budget.methods KEY_TERMS,
    results := select_excerpts_from_section sectioned_text.results budget.results KEY_TERMS,
    discussion := select_excerpts_from_section sectioned_text.discussion budget.discussion KEY_TERMS,
    conclusion := select_excerpts_from_section sectioned_text.conclusion budget.conclusion KEY_TERMS }

/-! ## step2/fetch_fulltext.py

The network is an oracle mapping a URL to `none` (the request raised) or a
response; JSON bodies are carried pre-parsed as `Jv` values, with Python's
dynamic accesses modelled so that an access that would raise (`.get` on a
non-dict) fails the enclosing stage, exactly as the blanket `except` of each
stage does.  As in the source, the query parameters each stage builds are
never passed to `requests.get`, so a response depends on the URL alone. -/

/-- A JSON value. -/
inductive Jv where
  | null : Jv
  | jbool : Bool → Jv
  | jnum : ℚ → Jv
  | jstr : String → Jv
  | jarr : List Jv → Jv
  | jobj : List (String × Jv) → Jv

/-- Lookup in a JSON object's field list (first binding wins). -/
def jv_lookup : List (String × Jv) → String → Option Jv
  | [], _ => none
  | (k, v) :: rest, key => if k = key then some v else jv_lookup rest key

/-- Python `d.get(key, default)`: `none` models the `AttributeError` of
calling `.get` on a non-dict. -/
def Jv.getd (j : Jv) (key : String) (default : Jv) : Option Jv :=
  match j with
  | .jobj fields => some ((jv_lookup fields key).getD default)
  | _ => none

/-- Python `d.get(key)` (default `None`). -/
def Jv.get1 (j : Jv) (key : String) : Option Jv :=
  j.getd key .null

/-- Python truthiness of a JSON value. -/
def Jv.truthy : Jv → Bool
  | .null => false
  | .jbool b => b
  | .jnum q => q != 0
  | .jstr s => s != ""
  | .jarr xs => !xs.isEmpty
  | .jobj fields => !fields.isEmpty

/-- A JSON value used where the code needs a truthy string (URLs, PMCIDs):
`none` for `None`, the empty string or a non-string value (a non-string
here would make the subsequent request raise, which the stage swallows). -/
def Jv.truthy_str : Jv → Option String
  | .jstr s => if s != "" then some s else none
  | _ => none

/-- A JSON value stored into an optional string field of the result
(`"pmcid": pmcid` may store `None`). -/
def Jv.opt_str : Jv → Option String
  | .jstr s => some s
  | _ => none

/-- Python `j == s` for a JSON value against a string literal. -/
def Jv.is_str (j : Jv) (s : String) : Bool :=
  match j with
  | .jstr t => t == s
  | _ => false

/-- An HTTP response: status, headers' content type, the body as text and
as bytes, and its JSON parse (`none` when `.json()` would raise). -/
structure Resp where
  status : Nat
  content_type : String
  text : String
  content : String
  json : Option Jv

/-- The network oracle: what `requests.get` returns for each URL (`none`
models a raised exception). -/
structure Oracle where
  get : String → Option Resp

/-- The retrieval settings dictionary of `resolve_fulltext`.  `allow_network`
and `abstract_only_ok` carry their `settings.get(key, True)` defaults at
construction. -/
structure Settings where
  fulltext_override : Option String
  allow_network : Bool
  unpaywall_email : Option String
  abstract_only_ok : Bool
  timeout_seconds : Nat
  user_agent : Option String

/-- `FullTextResult` (`step2/fetch_fulltext.py` lines 13-20); byte payloads
are carried as strings. -/
structure FullTextResult where
  route : String
  pmcid : Option String := none
  oa_pdf_url : Option String := none
  publisher_url : Option String := none
  html : Option String := none
  pdf_bytes : Option String := none
  abstract : Option String := none
deriving DecidableEq

/-- `_make_request` (`step2/fetch_fulltext.py` lines 344-377): issue the
request, and when an expected content type is given, fail the request
unless it is a substring of the response's content type. -/
def make_request (url : String) (expected_content_type : Option String)
    (st : Settings) (o : Oracle) : Option Resp :=
  match o.get url with
  | none => none
  | some response =>
    match expected_content_type with
    | some expected =>
      if contains_sub expected response.content_type then some response else none
    | none => some response

/-- The query `_get_pmcid_from_identifiers`, `_fetch_europe_pmc` and
`_fetch_abstract` build: `DOI:` wins over `EXT_ID:`, and no identifier
returns `None`. -/
def build_query (doi pmid : Option String) : Option String :=
  match doi with
  | some d =>
    if d != "" then some ("DOI:" ++ d)
    else
      match pmid with
      | some p => if p != "" then some ("EXT_ID:" ++ p) else none
      | none => none
  | none =>
    match pmid with
    | some p => if p != "" then some ("EXT_ID:" ++ p) else none
    | none => none

/-- The Europe PMC search endpoint (the `params` dict is built but never
passed to `requests.get`, so the URL carries no query). -/
def europe_pmc_search_url : String :=
  "https://www.ebi.ac.uk/europepmc/webservices/rest/search"

/-- `data.get("resultList", {}).get("result", [])` followed by
`if results: results[0]`: `none` = an access raised; `some none` = no
results; `some (some r)` = the first result. -/
def nav_first_result (data : Jv) : Option (Option Jv) :=
  match data.getd "resultList" (Jv.jobj []) with
  | none => none
  | some result_list =>
    match result_list.getd "result" (Jv.jarr []) with
    | none => none
    | some results =>
      match results with
      | .jarr xs => some xs.head?
      | _ => none

/-- `_get_pmcid_from_identifiers` (`step2/fetch_fulltext.py` lines
380-419): the Europe PMC lookup of a PMCID from a DOI or PMID. -/
def get_pmcid_from_identifiers (doi pmid : Option String) (st : Settings)
    (o : Oracle) : Option Jv :=
  match build_query doi pmid with
  | none => none
  | some _query =>
    match make_request europe_pmc_search_url none st o with
    | none => none
    | some response =>
      if response.status == 200 then
        match response.json with
        | none => none
        | some data =>
          match nav_first_result data with
          | none => none
          | some none => none
          | some (some result) =>
            match result.get1 "pmcid" with
            | none => none
            | some v => some v
      else none

/-- `_fetch_pmc` (`step2/fetch_fulltext.py` lines 82-126), fuel-indexed:
the outer `none` means the fuel ran out before the recursion did (the
Python recursion `return _fetch_pmc(doi, pmid, pmcid_from_identifiers,
settings)` is unguarded), `some r` that the stage returned `r`. -/
def fetch_pmc : Nat → Option String → Option String → Option String → Settings → Oracle →
    Option (Option FullTextResult)
  | 0, _, _, _, _, _ => none
  | Nat.succ fuel, doi, pmid, pmcid, st, o =>
    let direct : Option FullTextResult :=
      match pmcid with
      | some pc =>
        if pc != "" then
          let pdf_url := "https://www.ncbi.nlm.nih.gov/pmc/articles/" ++ pc ++ "/pdf/"
          let pdf_attempt : Option FullTextResult :=
            match make_request pdf_url (some "application/pdf") st o with
            | some response =>
              if response.status == 200 then
                some { route := "pmc", pmcid := some pc, oa_pdf_url := some pdf_url,
                       pdf_bytes := some response.content }
              else none
            | none => none
          match pdf_attempt with
          | some r => some r
          | none =>
            let html_url := "https://www.ncbi.nlm.nih.gov/pmc/articles/" ++ pc ++ "/"
            match make_request html_url (some "text/html") st o with
            | some response =>
              if response.status == 200 then
                some { route := "pmc", pmcid := some pc, html := some response.text }
              else none
            | none => none
        else none
      | none => none
    match direct with
    | some r => some (some r)
    | none =>
      match (get_pmcid_from_identifiers doi pmid st o).bind Jv.truthy_str with
      | some pmcid_from_identifiers => fetch_pmc fuel doi pmid (some pmcid_from_identifiers) st o
      | none => some none

/-- Python f-string rendering of an optional string (`None` prints as
`"None"`). -/
def py_fstr : Option String → String
  | none => "None"
  | some s => s

/-- `_fetch_unpaywall` (`step2/fetch_fulltext.py` lines 129-179). -/
def fetch_unpaywall (doi : Option String) (st : Settings) (o : Oracle) :
    Option FullTextResult :=
  match st.unpaywall_email with
  | none => none
  | some email =>
    if email = "" then none
    else
      let url := "https://api.unpaywall.org/v2/" ++ py_fstr doi
      match make_request url none st o with
      | none => none
      | some response =>
        if response.status == 200 then
          match response.json with
          | none => none
          | some data =>
            match data.get1 "best_oa_location" with
            | none => none
            | some best_oa_location =>
              if best_oa_location.truthy then
                match best_oa_location.get1 "pdf_url" with
                | none => none
                | some pdf_url_jv =>
                  let pdf_attempt : Option FullTextResult :=
                    match pdf_url_jv.truthy_str with
                    | some pdf_url =>
                      match make_request pdf_url (some "application/pdf") st o with
                      | some pdf_response =>
                        if pdf_response.status == 200 then
                          some { route := "unpaywall", oa_pdf_url := some pdf_url,
                                 pdf_bytes := some pdf_response.content }
                        else none
                      | none => none
                    | none => none
                  match pdf_attempt with
                  | some r => some r
                  | none =>
                    match best_oa_location.get1 "url" with
                    | none => none
                    | some url_jv =>
                      match url_jv.truthy_str with
                      | some html_url =>
                        match make_request html_url (some "text/html") st o with
                        | some html_response =>
                          if html_response.status == 200 then
                            some { route := "unpaywall", publisher_url := some html_url,
                                   html := some html_response.text }
                          else none
                        | none => none
                      | none => none
              else none
        else none

/-- One link of the Europe PMC `fullTextUrl` list, as the loop of
`_fetch_europe_pmc` reads it: `none` = returned a result, `some none` =
loop went on, outer failure = an access raised. -/
def europe_pmc_link_step (pmcid_jv : Jv) (link : Jv) (st : Settings) (o : Oracle) :
    Option (Option FullTextResult) :=
  match link.get1 "documentType" with
  | none => none
  | some doc_type =>
    if doc_type.is_str "pdf" then
      match link.get1 "url" with
      | none => none
      | some url_jv =>
        match url_jv.truthy_str with
        | some pdf_url =>
          match make_request pdf_url (some "application/pdf") st o with
          | some pdf_response =>
            if pdf_response.status == 200 then
              some (some { route := "europempc", pmcid := pmcid_jv.opt_str,
                           oa_pdf_url := some pdf_url, pdf_bytes := some pdf_response.content })
            else some none
          | none => some none
        | none => some none
    else if doc_type.is_str "html" then
      match link.get1 "url" with
      | none => none
      | some url_jv =>
        match url_jv.truthy_str with
        | some html_url =>
          match make_request html_url (some "text/html") st o with
          | some html_response =>
            if html_response.status == 200 then
              some (some { route := "europempc", pmcid := pmcid_jv.opt_str,
                           html := some html_response.text })
            else some none
          | none => some none
        | none => some none
    else some none

/-- The `for link in full_text_links` loop of `_fetch_europe_pmc`. -/
def europe_pmc_links_loop (pmcid_jv : Jv) (st : Settings) (o : Oracle) :
    List Jv → Option (Option FullTextResult)
  | [] => some none
  | link :: rest =>
    match europe_pmc_link_step pmcid_jv link st o with
    | none => none
    | some (some r) => some (some r)
    | some none => europe_pmc_links_loop pmcid_jv st o rest

/-- `_fetch_europe_pmc` (`step2/fetch_fulltext.py` lines 182-252),
fuel-indexed because it may recurse into `fetch_pmc`. -/
def fetch_europe_pmc (fuel : Nat) (doi pmid : Option String) (st : Settings)
    (o : Oracle) : Option (Option FullTextResult) :=
  match build_query doi pmid with
  | none => some none
  | some _query =>
    match make_request europe_pmc_search_url none st o with
    | none => some none
    | some response =>
      if response.status == 200 then
        match response.json with
        | none => some none
        | some data =>
          match nav_first_result data with
          | none => some none
          | some none => some none
          | some (some result) =>
            match result.get1 "pmcid" with
            | none => some none
            | some pmcid_jv =>
              let links :=
                match (result.getd "fullTextUrlList" (Jv.jobj [])).bind
                    (fun ftl => ftl.getd "fullTextUrl" (Jv.jarr [])) with
                | some (.jarr xs) => some xs
                | _ => none
              match links with
              | none => some none
              | some full_text_links =>
                match europe_pmc_links_loop pmcid_jv st o full_text_links with
                | none => some none
                | some (some r) => some (some r)
                | some none =>
                  match pmcid_jv.truthy_str with
                  | some pc => fetch_pmc fuel doi pmid (some pc) st o
                  | none => some none
      else some none

/-- `_fetch_crossref` (`step2/fetch_fulltext.py` lines 255-294). -/
def fetch_crossref (doi : String) (st : Settings) (o : Oracle) :
    Option FullTextResult :=
  let url := "https://api.crossref.org/works/" ++ doi
  match make_request url none st o with
  | none => none
  | some response =>
    if response.status == 200 then
      match response.json with
      | none => none
      | some data =>
        match (data.getd "message" (Jv.jobj [])).bind (fun m => m.get1 "url") with
        | none => none
        | some publisher_url_jv =>
          match publisher_url_jv.truthy_str with
          | none => none
          | some publisher_url =>
            match make_request publisher_url (some "text/html") st o with
            | none => none
            | some html_response =>
              if html_response.status == 200 then
                if contains_sub "application/pdf" html_response.content_type then
                  some { route := "publisher", publisher_url := some publisher_url,
                         pdf_bytes := some html_response.content }
                else
                  some { route := "publisher", publisher_url := some publisher_url,
                         html := some html_response.text }
              else none
    else none

/-- `_fetch_abstract` (`step2/fetch_fulltext.py` lines 297-341). -/
def fetch_abstract (doi pmid : Option String) (st : Settings) (o : Oracle) :
    Option FullTextResult :=
  match build_query doi pmid with
  | none => none
  | some _query =>
    match make_request europe_pmc_search_url none st o with
    | none => none
    | some response =>
      if response.status == 200 then
        match response.json with
        | none => none
        | some data =>
          match nav_first_result data with
          | none => none
          | some none => none
          | some (some result) =>
            match result.get1 "abstractText" with
            | none => none
            | some abstract_jv =>
              match abstract_jv.truthy_str with
              | some abstract => some { route := "abstract", abstract := some abstract }
              | none => none
      else none

/-- `resolve_fulltext` (`step2/fetch_fulltext.py` lines 23-79), fuel-indexed
through the stages that may recurse: the outer `none` means the repository
stage's recursion outran the fuel, `some r` that the resolver returned
`r` (`some none` = Python `None`). -/
def resolve_fulltext (fuel : Nat) (doi pmid : Option String) (st : Settings)
    (o : Oracle) : Option (Option FullTextResult) :=
  if opt_truthy st.fulltext_override then
    some (some { route := "override", html := st.fulltext_override })
  else if !st.allow_network then some none
  else
    match fetch_pmc fuel doi pmid none st o with
    | none => none
    | some (some r) => some (some r)
    | some none =>
      let unpaywall_attempt :=
        if opt_truthy st.unpaywall_email then fetch_unpaywall doi st o else none
      match unpaywall_attempt with
      | some r => some (some r)
      | none =>
        match fetch_europe_pmc fuel doi pmid st o with
        | none => none
        | some (some r) => some (some r)
        | some none =>
          let crossref_attempt :=
            match doi with
            | some d => if d != "" then fetch_crossref d st o else none
            | none => none
          match crossref_attempt with
          | some r => some (some r)
          | none =>
            if st.abstract_only_ok then
              match fetch_abstract doi pmid st o with
              | some r => some (some r)
              | none => some none
            else some none

/-! ## Helper lemmas -/

set_option maxRecDepth 10000

theorem mem_ite_singleton {s t : String} {c : Prop} [Decidable c] :
    (s ∈ if c then [t] else []) ↔ (c ∧ s = t) := by
  by_cases h : c <;> simp [h]

theorem abs_width_div (w v : ℚ) (hv : v ≠ 0) : |(|w|) / v| > 1 ↔ |w| > |v| := by
  rw [abs_div, abs_abs, gt_iff_lt, lt_div_iff₀ (abs_pos.mpr hv), one_mul, ← gt_iff_lt]

theorem str_data_append (a b : String) : (a ++ b).data = a.data ++ b.data := by
  cases a
  cases b
  rfl

theorem insert_desc_perm {α : Type} (key : α → ℚ) (p : α) (l : List α) :
    (insert_desc key p l).Perm (p :: l) := by
  induction l with
  | nil => exact List.Perm.refl _
  | cons q qs ih =>
    by_cases h : key q ≤ key p
    · simp [insert_desc, h]
    · simp only [insert_desc, if_neg h]
      exact (ih.cons q).trans (List.Perm.swap p q qs)

theorem insert_desc_sorted {α : Type} (key : α → ℚ) (p : α) {l : List α}
    (h : l.Pairwise fun a b => key b ≤ key a) :
    (insert_desc key p l).Pairwise fun a b => key b ≤ key a := by
  induction l with
  | nil => simp [insert_desc]
  | cons q qs ih =>
    rcases List.pairwise_cons.mp h with ⟨hq, hqs⟩
    by_cases hle : key q ≤ key p
    · simp only [insert_desc, if_pos hle]
      refine List.pairwise_cons.mpr ⟨?_, h⟩
      intro b hb
      rcases List.mem_cons.mp hb with rfl | hb'
      · exact hle
      · exact le_trans (hq b hb') hle
    · simp only [insert_desc, if_neg hle]
      refine List.pairwise_cons.mpr ⟨?_, ih hqs⟩
      intro b hb
      rcases List.mem_cons.mp ((insert_desc_perm key p qs).mem_iff.mp hb) with rfl | hb'
      · exact le_of_not_le hle
      · exact hq b hb'

theorem sort_desc_perm {α : Type} (key : α → ℚ) (l : List α) :
    (sort_desc key l).Perm l := by
  induction l with
  | nil => exact List.Perm.refl _
  | cons x xs ih => exact (insert_desc_perm key x (sort_desc key xs)).trans (ih.cons x)

theorem sort_desc_sorted {α : Type} (key : α → ℚ) (l : List α) :
    (sort_desc key l).Pairwise fun a b => key b ≤ key a := by
  induction l with
  | nil => simp [sort_desc]
  | cons x xs ih => exact insert_desc_sorted key x ih

theorem find_desc_max {α : Type} (key : α → ℚ) (pred : α → Bool) :
    ∀ (l : List α), (l.Pairwise fun a b => key b ≤ key a) →
      ∀ x, l.find? pred = some x → ∀ y ∈ l, pred y = true → key y ≤ key x := by
  intro l
  induction l with
  | nil => intro _ x hx; simp at hx
  | cons a as ih =>
    intro hp x hx y hy hpy
    rcases List.pairwise_cons.mp hp with ⟨ha, has⟩
    by_cases hpa : pred a
    · rw [List.find?_cons_of_pos _ hpa] at hx
      cases hx
      rcases List.mem_cons.mp hy with rfl | hy'
      · exact le_refl _
      · exact ha y hy'
    · rw [List.find?_cons_of_neg _ (by simpa using hpa)] at hx
      rcases List.mem_cons.mp hy with rfl | hy'
      · exact absurd hpy hpa
      · exact ih has x hx y hy' hpy

theorem dedup_go_sublist : ∀ (xs : List Article) (seen_dois seen_pmids : List String),
    (dedup_go seen_dois seen_pmids xs).Sublist xs := by
  intro xs
  induction xs with
  | nil => intro _ _; simp [dedup_go]
  | cons a rest ih =>
    intro sd sp
    rw [dedup_go]
    by_cases h : dedup_identifier a ≠ "" ∧ dedup_identifier a ∉ sd ∧ dedup_identifier a ∉ sp
    · rw [if_pos h]
      exact (ih _ _).cons₂ a
    · rw [if_neg h]
      exact (ih _ _).cons a

theorem dedup_go_fresh : ∀ (xs : List Article) (seen_dois seen_pmids : List String)
    (b : Article), b ∈ dedup_go seen_dois seen_pmids xs →
    dedup_identifier b ≠ "" ∧ dedup_identifier b ∉ seen_dois ∧
      dedup_identifier b ∉ seen_pmids := by
  intro xs
  induction xs with
  | nil => intro _ _ b hb; simp [dedup_go] at hb
  | cons a rest ih =>
    intro sd sp b hb
    rw [dedup_go] at hb
    by_cases h : dedup_identifier a ≠ "" ∧ dedup_identifier a ∉ sd ∧ dedup_identifier a ∉ sp
    · rw [if_pos h] at hb
      rcases List.mem_cons.mp hb with rfl | hb'
      · exact h
      · rcases ih _ _ b hb' with ⟨h1, h2, h3⟩
        exact ⟨h1, fun hc => h2 (List.mem_append_left _ hc),
          fun hc => h3 (List.mem_append_left _ hc)⟩
    · rw [if_neg h] at hb
      exact ih _ _ b hb

theorem dedup_go_pairwise : ∀ (xs : List Article) (seen_dois seen_pmids : List String),
    (dedup_go seen_dois seen_pmids xs).Pairwise
      fun a b => dedup_identifier b ∉ ident_strings a := by
  intro xs
  induction xs with
  | nil => intro _ _; simp [dedup_go]
  | cons a rest ih =>
    intro sd sp
    rw [dedup_go]
    by_cases h : dedup_identifier a ≠ "" ∧ dedup_identifier a ∉ sd ∧ dedup_identifier a ∉ sp
    · rw [if_pos h]
      refine List.pairwise_cons.mpr ⟨?_, ih _ _⟩
      intro b hb
      rcases dedup_go_fresh _ _ _ b hb with ⟨_, h2, h3⟩
      intro hc
      rcases List.mem_append.mp hc with hc' | hc'
      · exact h2 (List.mem_append_right _ hc')
      · exact h3 (List.mem_append_right _ hc')
    · rw [if_neg h]
      exact ih _ _

theorem dedup_go_justified : ∀ (xs : List Article) (seen_dois seen_pmids : List String)
    (x : Article), x ∈ xs →
    x ∈ dedup_go seen_dois seen_pmids xs ∨ dedup_identifier x = "" ∨
    dedup_identifier x ∈ seen_dois ∨ dedup_identifier x ∈ seen_pmids ∨
    (dedup_go seen_dois seen_pmids xs).any
      (fun y => (ident_strings y).contains (dedup_identifier x)) = true := by
  intro xs
  induction xs with
  | nil => intro _ _ x hx; simp at hx
  | cons a rest ih =>
    intro sd sp x hx
    rw [dedup_go]
    by_cases h : dedup_identifier a ≠ "" ∧ dedup_identifier a ∉ sd ∧ dedup_identifier a ∉ sp
    · rw [if_pos h]
      rcases List.mem_cons.mp hx with rfl | hx'
      · exact Or.inl (List.mem_cons_self _ _)
      · rcases ih (sd ++ article_doi_strings a) (sp ++ article_pmid_strings a) x hx' with
          h1 | h2 | h3 | h4 | h5
        · exact Or.inl (List.mem_cons_of_mem _ h1)
        · exact Or.inr (Or.inl h2)
        · rcases List.mem_append.mp h3 with hc | hc
          · exact Or.inr (Or.inr (Or.inl hc))
          · refine Or.inr (Or.inr (Or.inr (Or.inr ?_)))
            rw [List.any_cons, Bool.or_eq_true]
            exact Or.inl (by simpa [ident_strings] using
              List.mem_append_left (article_pmid_strings a) hc)
        · rcases List.mem_append.mp h4 with hc | hc
          · exact Or.inr (Or.inr (Or.inr (Or.inl hc)))
          · refine Or.inr (Or.inr (Or.inr (Or.inr ?_)))
            rw [List.any_cons, Bool.or_eq_true]
            exact Or.inl (by simpa [ident_strings] using
              List.mem_append_right (article_doi_strings a) hc)
        · refine Or.inr (Or.inr (Or.inr (Or.inr ?_)))
          rw [List.any_cons, Bool.or_eq_true]
          exact Or.inr h5
    · rw [if_neg h]
      rcases List.mem_cons.mp hx with rfl | hx'
      · by_cases h1 : dedup_identifier x = ""
        · exact Or.inr (Or.inl h1)
        · by_cases h2 : dedup_identifier x ∈ sd
          · exact Or.inr (Or.inr (Or.inl h2))
          · by_cases h3 : dedup_identifier x ∈ sp
            · exact Or.inr (Or.inr (Or.inr (Or.inl h3)))
            · exact absurd ⟨h1, h2, h3⟩ h
      · exact ih sd sp x hx'

theorem select_pieces_go_budget : ∀ (scored : List (String × ℚ)) (alloc cur : Nat),
    ((select_pieces_go alloc scored cur).map estimate_tokens).sum ≤ alloc - cur := by
  intro scored
  induction scored with
  | nil => intro alloc cur; simp [select_pieces_go]
  | cons p rest ih =>
    intro alloc cur
    obtain ⟨para, sc⟩ := p
    rw [select_pieces_go]
    by_cases h : cur + estimate_tokens para ≤ alloc
    · rw [if_pos h]
      rw [List.map_cons, List.sum_cons]
      have hrec := ih alloc (cur + estimate_tokens para)
      omega
    · rw [if_neg h]
      by_cases h2 : alloc - cur > 10
      · rw [if_pos h2]
        rw [List.map_cons, List.map_nil, List.sum_cons, List.sum_nil]
        have h3 : ("..." : String).data.length = 3 := rfl
        have htake : (str_take para ((alloc - cur) * 4)).data.length ≤ (alloc - cur) * 4 :=
          List.length_take_le _ _
        have hlen : (str_take para ((alloc - cur) * 4) ++ "...").data.length ≤
            (alloc - cur) * 4 + 3 := by
          rw [str_data_append, List.length_append, h3]
          omega
        calc estimate_tokens (str_take para ((alloc - cur) * 4) ++ "...") + 0
            = (str_take para ((alloc - cur) * 4) ++ "...").data.length / 4 := by
              simp [estimate_tokens]
          _ ≤ ((alloc - cur) * 4 + 3) / 4 := Nat.div_le_div_right hlen
          _ = (4 * (alloc - cur) + 3) / 4 := by ring_nf
          _ = (alloc - cur) + 3 / 4 := Nat.mul_add_div (by norm_num) _ _
          _ = alloc - cur := by norm_num
      · rw [if_neg h2]
        simp

theorem section_pieces_budget (text : String) (alloc : Nat) (terms : List String) :
    ((section_pieces text alloc terms).map estimate_tokens).sum ≤ alloc := by
  have h := select_pieces_go_budget
    (sort_desc Prod.snd ((str_split_on text "\n\n").map fun p => (p, paragraph_score p terms)))
    alloc 0
  simpa [section_pieces] using h

/-! ## Concrete inputs for the claims -/

/-- An article with every optional field absent and every string empty. -/
def blank_article : Article :=
  { title := "", abstract := "", authors := [], journal := "", year := 0,
    pub_date := "", pmid := "", doi := none, url := "", language := "",
    mesh_terms := [], trial_design := "", sample_size := none,
    multicenter := none, intervention := "", comparator := "",
    primary_outcome := "", effect_summary := none, score := none, rationale := none }

/-- The candidate of the spec's scoring scenario. -/
def c3_article : Article :=
  { blank_article with
    sample_size := some 600,
    multicenter := some true,
    primary_outcome := "30-day mortality",
    intervention := "regional nerve block",
    journal := "Anesthesiology",
    effect_summary := some "35% reduction" }

/-- A high-scored candidate whose DOI is fresh but whose PMID appears in the
history. -/
def c1_art_fresh : Article :=
  { blank_article with
    doi := some "10.1000/fresh", pmid := "1001", score := some 5 }

/-- A lower-scored candidate with fresh identifiers. -/
def c1_art_other : Article :=
  { blank_article with
    doi := some "10.1000/other", pmid := "2002", score := some 3 }

/-- A history entry sharing only the PMID with `c1_art_fresh`. -/
def c1_history : List HistoryEntry :=
  [{ title := "old", doi := some "10.1000/old", pmid := some "1001", journal := "",
     date_selected := "", score := none, rationale := "" }]

/-- A record with a DOI, whose PMID reappears in the next record. -/
def c2_first : Article := { blank_article with doi := some "10.1000/dup", pmid := "11" }

/-- A record without DOI whose identity key is the shared PMID. -/
def c2_second : Article := { blank_article with doi := none, pmid := "11" }

/-- Effect estimate whose CI half-width is below, but full width above, the
point estimate. -/
def c6_cex_ee : EffectEstimate :=
  { measure := none, value := some 1, ci := some [0, 3/2], p := none }

/-- Card carrying `c6_cex_ee` and nothing else. -/
def c6_cex_card : ArticleCard :=
  { title := none, journal := none, date := none, doi := none, pmid := none,
    score := none, rationale := none, design := none, population := none,
    sample_size := none, intervention := none, comparator := none,
    primary_outcome := none, key_result_text := none,
    effect_estimate := some c6_cex_ee,
    centers := none, blinding := none, allocation := none, funding := none,
    conflicts := none, language := none }

/-- Effect estimate whose CI width clearly exceeds the point estimate. -/
def c6_wit_ee : EffectEstimate :=
  { measure := none, value := some 1, ci := some [0, 5], p := none }

/-- Card carrying `c6_wit_ee` and nothing else. -/
def c6_wit_card : ArticleCard :=
  { c6_cex_card with effect_estimate := some c6_wit_ee }

/-- Sectioned text whose abstract is ten 7-character paragraphs. -/
def c7_input : SectionedText :=
  { empty_sections with abstract := str_intercalate "\n\n" (List.replicate 10 "aaaaaaa") }

/-- Settings with a manual full-text override and networking disabled. -/
def c4_settings : Settings :=
  { fulltext_override := some "FULL TEXT", allow_network := false,
    unpaywall_email := none, abstract_only_ok := true, timeout_seconds := 30,
    user_agent := none }

/-- An oracle on which every request raises. -/
def c4_oracle : Oracle := { get := fun _ => none }

/-- Settings with networking on and no override. -/
def c5_settings : Settings :=
  { fulltext_override := none, allow_network := true, unpaywall_email := none,
    abstract_only_ok := true, timeout_seconds := 30, user_agent := none }

/-- A Europe PMC search payload reporting the PMCID `PMC123`. -/
def c5_payload : Jv :=
  Jv.jobj [("resultList", Jv.jobj [("result",
    Jv.jarr [Jv.jobj [("pmcid", Jv.jstr "PMC123")]])])]

/-- A network on which the metadata-search lookup succeeds with `c5_payload`
and every repository fetch raises. -/
def c5_oracle : Oracle :=
  { get := fun url =>
      if url = europe_pmc_search_url then
        some { status := 200, content_type := "application/json", text := "",
               content := "", json := some c5_payload }
      else none }

theorem c5_pmc_loop : ∀ n,
    fetch_pmc n (some "10.1000/test") none (some "PMC123") c5_settings c5_oracle = none := by
  intro n
  induction n with
  | zero => rfl
  | succ n ih => exact ih

theorem c5_pmc_entry : ∀ n,
    fetch_pmc n (some "10.1000/test") none none c5_settings c5_oracle = none := by
  intro n
  cases n with
  | zero => rfl
  | succ n => exact c5_pmc_loop n

/-! ## The claims -/

/-- C1 (counterexample): the selector with avoid_history=true does NOT
return the highest-scored candidate whose identity key (DOI if present,
else PMID) matches no history entry: `c1_art_fresh` has the higher score
and its identity key `10.1000/fresh` matches no history entry, yet the
code skips it (its PMID matches an entry's PMID) and returns
`c1_art_other`. -/
theorem C1_selector_history_counterexample :
    (select_top_article [c1_art_fresh, c1_art_other] true c1_history).map Prod.fst =
      some c1_art_other ∧
    spec_key_in_history c1_art_fresh c1_history = false ∧
    key_score c1_art_other < key_score c1_art_fresh ∧
    c1_art_other ≠ c1_art_fresh := by decide

/-- C1 (amended): for every non-empty candidate list and history, the
selector with avoid_history=true returns a candidate; the returned
candidate either is not previously selected (no history entry shares its
DOI or its PMID) and has the top score among such candidates, or every
candidate is previously selected and it has the overall top score with
the previously-selected annotation appended to its rationale. -/
theorem C1_selector_history_amended (articles : List Article) (history : List HistoryEntry) :
    (articles ≠ [] → (select_top_article articles true history).isSome = true) ∧
    (∀ a rat, select_top_article articles true history = some (a, rat) →
      a ∈ articles ∧
      ((is_article_previously_selected a history = false ∧
        (∀ b ∈ articles, is_article_previously_selected b history = false →
          key_score b ≤ key_score a) ∧
        rat = base_rationale a) ∨
       ((∀ b ∈ articles, is_article_previously_selected b history = true) ∧
        (∀ b ∈ articles, key_score b ≤ key_score a) ∧
        rat = base_rationale a ++ previously_selected_note))) := by
  have hperm := sort_desc_perm key_score articles
  have hsort := sort_desc_sorted key_score articles
  by_cases hne : articles.isEmpty
  · constructor
    · intro hcon
      exact absurd (List.isEmpty_iff.mp hne) hcon
    · intro a rat hsel
      rw [select_top_article, if_pos hne] at hsel
      exact absurd hsel (by simp)
  · cases hs : sort_desc key_score articles with
    | nil =>
      exfalso
      rw [hs] at hperm
      exact hne (List.isEmpty_iff.mpr (List.Perm.nil_eq hperm).symm)
    | cons top rest =>
      rw [hs] at hperm hsort
      have hsel_eq : select_top_article articles true history =
          match (top :: rest).find? (fun a => !is_article_previously_selected a history) with
          | some a => some (a, base_rationale a)
          | none => some (top, base_rationale top ++ previously_selected_note) := by
        rw [select_top_article, if_neg hne, hs]
        simp
      cases hf : (top :: rest).find? (fun a => !is_article_previously_selected a history) with
      | some chosen =>
        rw [hf] at hsel_eq
        constructor
        · intro _
          rw [hsel_eq]
          rfl
        · intro a rat hsel
          rw [hsel_eq] at hsel
          injection hsel with hsel
          injection hsel with ha hrat
          subst ha
          subst hrat
          have hmem : chosen ∈ articles := hperm.mem_iff.mp (List.mem_of_find?_eq_some hf)
          have hpred := List.find?_some hf
          refine ⟨hmem, Or.inl ⟨by simpa using hpred, ?_, rfl⟩⟩
          intro b hb hbprev
          exact find_desc_max key_score _ (top :: rest) hsort chosen hf b
            (hperm.mem_iff.mpr hb) (by simp [hbprev])
      | none =>
        rw [hf] at hsel_eq
        have hall : ∀ b ∈ articles, is_article_previously_selected b history = true := by
          intro b hb
          have := List.find?_eq_none.mp hf b (hperm.mem_iff.mpr hb)
          simpa using this
        constructor
        · intro _
          rw [hsel_eq]
          rfl
        · intro a rat hsel
          rw [hsel_eq] at hsel
          injection hsel with hsel
          injection hsel with ha hrat
          subst ha
          subst hrat
          have htop : top ∈ articles := hperm.mem_iff.mp (List.mem_cons_self top rest)
          refine ⟨htop, Or.inr ⟨hall, ?_, rfl⟩⟩
          intro b hb
          rcases List.mem_cons.mp (hperm.mem_iff.mpr hb) with rfl | hb'
          · exact le_refl _
          · exact (List.pairwise_cons.mp hsort).1 b hb'

/-- C2 (counterexample): deduplicate does NOT remove exactly the later
duplicates by identity key: `c2_second`'s identity key `11` differs from
`c2_first`'s key `10.1000/dup`, yet `c2_second` is removed because its key
equals the PMID of the earlier record. -/
theorem C2_deduplicate_counterexample :
    deduplicate_articles [c2_first, c2_second] = [c2_first] ∧
    spec_identity_key c2_second ≠ spec_identity_key c2_first := by decide

/-- Spec-side recursion following the amended claim's words, not the code:
scan the input in order, and retain a record exactly when its identity key
(DOI if present, else PMID) is non-empty and equals neither the DOI nor the
PMID of any EARLIER RETAINED record (`kept` lists those, in order); so the
first occurrence with a given identifier is the one retained. -/
def spec_dedup_go (kept : List Article) : List Article → List Article
  | [] => []
  | x :: rest =>
    if dedup_identifier x ≠ "" ∧ ∀ y ∈ kept, dedup_identifier x ∉ ident_strings y then
      x :: spec_dedup_go (kept ++ [x]) rest
    else
      spec_dedup_go kept rest

/-- The deduplication result the amended claim prescribes, starting with no
retained records. -/
def spec_dedup (xs : List Article) : List Article := spec_dedup_go [] xs

theorem dedup_go_eq_spec : ∀ (xs kept : List Article) (sd sp : List String),
    (∀ s : String, s ∈ sd ↔ ∃ y ∈ kept, s ∈ article_doi_strings y) →
    (∀ s : String, s ∈ sp ↔ ∃ y ∈ kept, s ∈ article_pmid_strings y) →
    dedup_go sd sp xs = spec_dedup_go kept xs := by
  intro xs
  induction xs with
  | nil => intro kept sd sp _ _; rfl
  | cons x rest ih =>
    intro kept sd sp hd hp
    rw [dedup_go, spec_dedup_go]
    have hcond : (dedup_identifier x ≠ "" ∧ dedup_identifier x ∉ sd ∧
        dedup_identifier x ∉ sp) ↔
        (dedup_identifier x ≠ "" ∧ ∀ y ∈ kept, dedup_identifier x ∉ ident_strings y) := by
      constructor
      · rintro ⟨h1, h2, h3⟩
        refine ⟨h1, fun y hy hc => ?_⟩
        rcases List.mem_append.mp hc with hcc | hcc
        · exact h2 ((hd _).mpr ⟨y, hy, hcc⟩)
        · exact h3 ((hp _).mpr ⟨y, hy, hcc⟩)
      · rintro ⟨h1, h2⟩
        refine ⟨h1, fun hc => ?_, fun hc => ?_⟩
        · rcases (hd _).mp hc with ⟨y, hy, hyy⟩
          exact h2 y hy (List.mem_append_left _ hyy)
        · rcases (hp _).mp hc with ⟨y, hy, hyy⟩
          exact h2 y hy (List.mem_append_right _ hyy)
    by_cases h : dedup_identifier x ≠ "" ∧ dedup_identifier x ∉ sd ∧ dedup_identifier x ∉ sp
    · rw [if_pos h, if_pos (hcond.mp h)]
      congr 1
      refine ih (kept ++ [x]) _ _ ?_ ?_
      · intro s
        rw [List.mem_append, hd s]
        constructor
        · rintro (⟨y, hy, hyy⟩ | hs)
          · exact ⟨y, List.mem_append_left _ hy, hyy⟩
          · exact ⟨x, List.mem_append_right _ (List.mem_singleton_self x), hs⟩
        · rintro ⟨y, hy, hyy⟩
          rcases List.mem_append.mp hy with hy' | hy'
          · exact Or.inl ⟨y, hy', hyy⟩
          · obtain rfl := List.mem_singleton.mp hy'
            exact Or.inr hyy
      · intro s
        rw [List.mem_append, hp s]
        constructor
        · rintro (⟨y, hy, hyy⟩ | hs)
          · exact ⟨y, List.mem_append_left _ hy, hyy⟩
          · exact ⟨x, List.mem_append_right _ (List.mem_singleton_self x), hs⟩
        · rintro ⟨y, hy, hyy⟩
          rcases List.mem_append.mp hy with hy' | hy'
          · exact Or.inl ⟨y, hy', hyy⟩
          · obtain rfl := List.mem_singleton.mp hy'
            exact Or.inr hyy
    · rw [if_neg h, if_neg fun hc => h (hcond.mpr hc)]
      exact ih kept sd sp hd hp

/-- C2 (amended): deduplicate returns exactly the spec-side first-occurrence
result: the input scanned in order, a record retained iff its identity key
(DOI if present, else PMID) is non-empty and equals neither the DOI nor the
PMID of any earlier retained record.  In particular the output is a sublist
of the input (order preserved), every retained record has a non-empty
identity key (identifier-less records are dropped), retained records are
pairwise identifier-disjoint, every dropped record is accounted for, and
two records sharing a (truthy) DOI keep only the first, whatever their
PMIDs. -/
theorem C2_deduplicate_amended (xs : List Article) :
    deduplicate_articles xs = spec_dedup xs ∧
    (deduplicate_articles xs).Sublist xs ∧
    (∀ a ∈ deduplicate_articles xs, dedup_identifier a ≠ "") ∧
    ((deduplicate_articles xs).Pairwise fun a b => dedup_identifier b ∉ ident_strings a) ∧
    (∀ x, x ∈ xs → x ∈ deduplicate_articles xs ∨ dedup_identifier x = "" ∨
      (deduplicate_articles xs).any
        (fun y => (ident_strings y).contains (dedup_identifier x)) = true) ∧
    (∀ a b : Article, opt_truthy a.doi = true → a.doi = b.doi →
      deduplicate_articles [a, b] = [a]) := by
  refine ⟨dedup_go_eq_spec xs [] [] [] (by simp) (by simp),
    dedup_go_sublist xs [] [], fun a ha => (dedup_go_fresh xs [] [] a ha).1,
    dedup_go_pairwise xs [] [], ?_, ?_⟩
  · intro x hx
    rcases dedup_go_justified xs [] [] x hx with h1 | h2 | h3 | h3 | h5
    · exact Or.inl h1
    · exact Or.inr (Or.inl h2)
    · simp at h3
    · simp at h3
    · exact Or.inr (Or.inr h5)
  · intro a b ha hab
    rcases hdoi : a.doi with _ | d
    · rw [hdoi] at ha
      simp [opt_truthy] at ha
    · have hdne : d ≠ "" := by simpa [opt_truthy, hdoi] using ha
      have hb : b.doi = some d := hab.symm.trans hdoi
      have hdb : (d != "") = true := by simpa using hdne
      simp [deduplicate_articles, dedup_go, dedup_identifier, py_identifier, hdoi, hb,
        hdne, hdb, article_doi_strings, article_pmid_strings]

/-- C3: a candidate with sample_size 600, multicenter, primary outcome
"30-day mortality", intervention "regional nerve block", journal
"Anesthesiology" and effect summary "35% reduction" scores exactly
3.0+1.0+1.5+1.5+2.0+1.0 = 10.0, with the six applied reasons
semicolon-joined in rule order. -/
theorem C3_score_ten (a : Article)
    (h1 : a.sample_size = some 600)
    (h2 : a.multicenter = some true)
    (h3 : a.primary_outcome = "30-day mortality")
    (h4 : a.intervention = "regional nerve block")
    (h5 : a.journal = "Anesthesiology")
    (h6 : a.effect_summary = some "35% reduction") :
    score_article a =
      (10, "large sample size (>500); multicenter study; patient-centered outcome; clinically actionable intervention; high-quality journal; quantified effect") := by
  have hpo : any_term_in PATIENT_CENTERED_OUTCOMES (str_lower "30-day mortality") = true := by
    decide
  have hiv : any_term_in CLINICALLY_ACTIONABLE_INTERVENTIONS
      (str_lower "regional nerve block") = true := by decide
  have hj : HIGH_QUALITY_JOURNALS.contains "Anesthesiology" = true := by decide
  have hre : effect_regex "35% reduction" = true := by decide
  have hcond : ¬("35% reduction" : String) = "" ∧ 0 < (py_strip "35% reduction").length := by
    constructor
    · decide
    · decide
  simp only [score_article, h1, h2, h3, h4, h5, h6, hpo, hiv, hj, hre, if_true]
  rw [if_pos hcond]
  refine Prod.ext ?_ ?_
  · norm_num
  · decide

/-- C3 (witness): the scenario evaluated at a concrete candidate. -/
theorem C3_score_ten_witness :
    score_article c3_article =
      (10, "large sample size (>500); multicenter study; patient-centered outcome; clinically actionable intervention; high-quality journal; quantified effect") :=
  C3_score_ten c3_article rfl rfl rfl rfl rfl rfl

/-- C4: whenever the settings carry a (truthy) manual full-text override,
the resolver returns the override result tagged with the override route at
once, for every fuel, every identifier pair, every oracle and regardless of
the networking switch — so no network stage can influence the result. -/
theorem C4_override_short_circuit (fuel : Nat) (doi pmid : Option String)
    (st : Settings) (o : Oracle) (h : opt_truthy st.fulltext_override = true) :
    resolve_fulltext fuel doi pmid st o =
      some (some { route := "override", html := st.fulltext_override }) := by
  simp only [resolve_fulltext]
  rw [if_pos h]

/-- C4 (witness): the override wins with zero fuel, networking disabled and
a network on which every request raises. -/
theorem C4_override_short_circuit_witness :
    resolve_fulltext 0 none none c4_settings c4_oracle =
      some (some { route := "override", html := some "FULL TEXT" }) :=
  C4_override_short_circuit 0 none none c4_settings c4_oracle (by decide)

/-- C5: the repository stage's re-entry is NOT bounded by one: on a
deterministic network where the PMCID lookup succeeds and both repository
fetches fail, `fetch_pmc` re-enters itself for ever (no fuel suffices), and
the resolver diverges with it; each pass repeats the same lookup because
the lookup runs even when a PMCID was already supplied. -/
theorem C5_repository_reentry_unbounded :
    ∀ fuel : Nat,
      fetch_pmc fuel (some "10.1000/test") none none c5_settings c5_oracle = none ∧
      resolve_fulltext fuel (some "10.1000/test") none c5_settings c5_oracle = none := by
  intro fuel
  refine ⟨c5_pmc_entry fuel, ?_⟩
  have h1 : opt_truthy c5_settings.fulltext_override = false := rfl
  have h2 : (!c5_settings.allow_network) = false := rfl
  simp [resolve_fulltext, h1, h2, c5_pmc_entry fuel]

/-- C6 (counterexample): the imprecise-effect flag is NOT emitted exactly
when the CI half-width exceeds |effect estimate|: for estimate 1 with CI
[0, 3/2] the half-width 3/4 does not exceed 1, yet the code (which uses
the full width 3/2) emits the flag. -/
theorem C6_imprecise_effect_counterexample :
    "Imprecise effect: wide confidence interval" ∈ detect_red_flags c6_cex_card ∧
    spec_imprecise_cond 1 0 (3/2) = false := by
  have habs : |(3/2 : ℚ)| = 3/2 := abs_of_pos (by norm_num)
  constructor
  · have hlt : (1 : ℚ) < |(3/2 : ℚ)| := by rw [habs]; norm_num
    simp [detect_red_flags, c6_cex_card, c6_cex_ee, mem_ite_singleton, hlt]
  · simp only [spec_imprecise_cond, decide_eq_false_iff_not, sub_zero, habs]
    norm_num

/-- C6 (amended): for every structured record carrying an effect estimate
with a point value and a two-element confidence interval, the detector
emits the imprecise-effect flag exactly when the point value is nonzero
and the FULL CI width (the absolute difference of the bounds) exceeds the
absolute value of the point value. -/
theorem C6_imprecise_effect_amended (card : ArticleCard) (ee : EffectEstimate) (v c0 c1 : ℚ)
    (h1 : card.effect_estimate = some ee) (h2 : ee.value = some v)
    (h3 : ee.ci = some [c0, c1]) :
    ("Imprecise effect: wide confidence interval" ∈ detect_red_flags card ↔
      (v ≠ 0 ∧ |c1 - c0| > |v|)) := by
  have hiff : (v ≠ 0 ∧ |(|c1 - c0|) / v| > 1) ↔ (v ≠ 0 ∧ |c1 - c0| > |v|) :=
    and_congr_right fun hv => abs_width_div (c1 - c0) v hv
  rcases hss : card.sample_size with _ | n <;>
    rcases hpo : card.primary_outcome with _ | s <;>
      rcases hp : ee.p with _ | (_ | q) <;>
        by_cases hal : opt_falsy card.allocation <;>
          by_cases hbl : opt_falsy card.blinding <;>
            simp [detect_red_flags, h1, h2, h3, hss, hpo, hp, hal, hbl,
              mem_ite_singleton, hiff] <;>
              exact fun hstr => absurd hstr (by decide)

/-- C6 (witness): the amended rule instantiated at estimate 1 with CI
[0, 5], whose width 5 exceeds 1, so the flag is emitted. -/
theorem C6_imprecise_effect_witness :
    "Imprecise effect: wide confidence interval" ∈ detect_red_flags c6_wit_card :=
  (C6_imprecise_effect_amended c6_wit_card c6_wit_ee 1 0 5 rfl rfl rfl).mpr (by norm_num)

/-- C7 (counterexample): a section's excerpt token estimate can exceed its
budget share by more than one truncated paragraph's overflow: at max
tokens 100 the abstract share is 10; ten 7-character paragraphs each
estimate 1 token, no truncation happens (no "..." in the output), yet the
joined excerpt estimates 22 tokens > 10 + 1. -/
theorem C7_excerpt_budget_counterexample :
    (allocate_token_budget 100).abstract = 10 ∧
    estimate_tokens ((select_excerpts_for_prompt c7_input 100).abstract) = 22 ∧
    contains_sub "..." ((select_excerpts_for_prompt c7_input 100).abstract) = false ∧
    (str_split_on c7_input.abstract "\n\n").all (fun p => estimate_tokens p ≤ 1) = true ∧
    10 + 1 < 22 := by decide

/-- C7 (amended): for every sectioned text and max-token budget, the sum of
the individual token estimates of the pieces selected for a section never
exceeds that section's integer-truncated budget share; it is only the
estimate of the joined excerpt (whose per-paragraph floor remainders and
two-character separators go uncounted) that can overshoot the share. -/
theorem C7_excerpt_budget_amended (st : SectionedText) (max_tokens : Nat) :
    (((section_pieces st.abstract (allocate_token_budget max_tokens).abstract KEY_TERMS).map
        estimate_tokens).sum ≤ (allocate_token_budget max_tokens).abstract) ∧
    (((section_pieces st.introduction (allocate_token_budget max_tokens).introduction
        KEY_TERMS).map estimate_tokens).sum ≤
      (allocate_token_budget max_tokens).introduction) ∧
    (((section_pieces st.methods (allocate_token_budget max_tokens).methods KEY_TERMS).map
        estimate_tokens).sum ≤ (allocate_token_budget max_tokens).methods) ∧
    (((section_pieces st.results (allocate_token_budget max_tokens).results KEY_TERMS).map
        estimate_tokens).sum ≤ (allocate_token_budget max_tokens).results) ∧
    (((section_pieces st.discussion (allocate_token_budget max_tokens).discussion
        KEY_TERMS).map estimate_tokens).sum ≤
      (allocate_token_budget max_tokens).discussion) ∧
    (((section_pieces st.conclusion (allocate_token_budget max_tokens).conclusion
        KEY_TERMS).map estimate_tokens).sum ≤
      (allocate_token_budget max_tokens).conclusion) :=
  ⟨section_pieces_budget _ _ _, section_pieces_budget _ _ _, section_pieces_budget _ _ _,
   section_pieces_budget _ _ _, section_pieces_budget _ _ _, section_pieces_budget _ _ _⟩

/-- C8: the header mapping sends "Materials and Methods" to methods and
"Background" to introduction; the sectioning loop starts in the abstract
section; and a line matching no section name or synonym leaves the current
section unchanged, accumulating into its content. -/
theorem C8_section_header_mapping :
    map_section_headers "Materials and Methods" = some "methods" ∧
    map_section_headers "Background" = some "introduction" ∧
    initial_section_state.1 = "abstract" ∧
    ∀ (st : String × List String × SectionedText) (line : String),
      map_section_headers (py_strip line) = none →
      section_step st line = (st.1, st.2.1 ++ [line], st.2.2) := by
  refine ⟨by decide, by decide, rfl, ?_⟩
  intro st line h
  simp [section_step, h]

/-- C9: a candidate with no DOI and no non-empty PMID is never counted as
previously selected, whatever the history holds, so with
avoid_history=true it is always eligible. -/
theorem C9_missing_identifiers_check (a : Article) (history : List HistoryEntry)
    (h1 : opt_truthy a.doi = false) (h2 : a.pmid = "") :
    is_article_previously_selected a history = false := by
  rcases ha : a.doi with _ | d
  · simp [is_article_previously_selected, py_identifier, ha, h2]
  · have hd : d = "" := by
      by_contra hc
      simp [opt_truthy, ha, hc] at h1
    subst hd
    simp [is_article_previously_selected, py_identifier, ha, h2]

/-- C9 (witness): the blank candidate is not previously selected even
against a non-empty history. -/
theorem C9_missing_identifiers_check_witness :
    is_article_previously_selected blank_article c1_history = false :=
  C9_missing_identifiers_check blank_article c1_history (by decide) rfl

/-- C10: whenever the methods section is the empty string, the text
red-flag detector emits the missing-blinding CONSORT flag: it cannot tell
an unextracted methods section from one that omits blinding and masking. -/
theorem C10_empty_methods_blinding_flag (st : SectionedText) (h : st.methods = "") :
    "Missing CONSORT element: blinding procedures not described" ∈
      detect_content_red_flags st := by
  have hb : contains_sub "blinding" (str_lower "") = false := by decide
  have hm : contains_sub "masking" (str_lower "") = false := by decide
  simp [detect_content_red_flags, h, hb, hm]

/-- C10 (witness): the all-empty sectioned text gets the flag. -/
theorem C10_empty_methods_blinding_flag_witness :
    "Missing CONSORT element: blinding procedures not described" ∈
      detect_content_red_flags empty_sections :=
  C10_empty_methods_blinding_flag empty_sections rfl
